import Mathlib

/-!
Shallow embedding of `sunburnt/sunburnt.py` (the Solr HTTP transport layer):
connection construction, update-URL building with modifier validation,
GET/POST selection for select and more-like-this queries, the single-retry
request wrapper, the document batcher `grouper`, and the facade's `delete`
guard.  The code is Python 2, so the embedding models the relevant Python 2
semantics explicitly (string/int comparison ordering, `int()` coercion,
truthiness, `urllib` percent-encoding).

A Python 2 `str` is a byte string; the embedding represents it as a Lean
`String` with one `Char` per byte (so Python's `len` is `String.length`,
and `urllib.quote_plus` reads each `Char`'s code as the byte value).
-/

deriving instance DecidableEq for Except

namespace Sunburnt

/-- A Python value, as far as the modifier parameters need: an int, a str,
or `None`.  (`commitWithin` and `maxSegments` accept anything; the code
applies `int()` to them and catches `TypeError`/`ValueError`.) -/
inductive PyVal where
  | pInt (n : Int)
  | pStr (s : String)
  | pNone
  deriving DecidableEq, Repr

/-- Python `int(x)`: an int is returned unchanged; a str is parsed as a
decimal integer (`ValueError` if unparsable); `None` raises `TypeError`.
`none` here means the coercion raised (both exception types are caught
together at the call sites in `url_for_update`). -/
def pyInt : PyVal → Option Int
  | .pInt n => some n
  | .pStr s => s.toInt?
  | .pNone => none

/-- CPython 2 mixed-type comparison: values of different types with no
numeric coercion are ordered by type name, and `"int" < "str"`, so every
`str` compares strictly greater than every `int`.  Hence `s < n` is always
`False` for a str `s` and an int `n`. -/
def py2_str_lt_int (_s : String) (_n : Int) : Bool := false

/-- CPython 2 mixed-type comparison, `<=` case: since every `str` is
strictly greater than every `int`, `s <= n` is always `False`. -/
def py2_str_le_int (_s : String) (_n : Int) : Bool := false

/-- Uppercase hexadecimal digit, as used by `urllib.quote`'s `%%%02X`
format. -/
def hexDigit (n : Nat) : Char :=
  if n < 10 then Char.ofNat (48 + n) else Char.ofNat (55 + n)

/-- Python 2 `urllib.always_safe` membership for a byte: ASCII letters,
digits, and `_`, `.`, `-`.  (`quote_plus` passes `safe=''`, so nothing
else is left unescaped.) -/
def isAlwaysSafe (b : Nat) : Bool :=
  (65 ≤ b && b ≤ 90) || (97 ≤ b && b ≤ 122) || (48 ≤ b && b ≤ 57) ||
    b == 95 || b == 46 || b == 45

/-- Python 2 `urllib.quote_plus`: operates on the byte string (each `Char`
here standing for one byte), maps space to `+`, keeps always-safe bytes,
and percent-encodes everything else with uppercase hex. -/
def quote_plus (s : String) : String :=
  String.mk <| s.toList.foldr
    (fun c acc =>
      let b := c.toNat
      if b = 32 then '+' :: acc
      else if isAlwaysSafe b then c :: acc
      else '%' :: hexDigit (b / 16 % 16) :: hexDigit (b % 16) :: acc)
    []

/-- Python 2 `urllib.urlencode` on a list of string pairs:
`quote_plus(k) + "=" + quote_plus(v)` joined with `&`. -/
def urlencode (params : List (String × String)) : String :=
  String.intercalate "&" (params.map fun p => quote_plus p.1 ++ "=" ++ quote_plus p.2)

/-- Lexicographic comparison of byte sequences, as Python 2 compares
`str` values. -/
def bytesLe : List Char → List Char → Bool
  | [], _ => true
  | _ :: _, [] => false
  | a :: as, b :: bs =>
    if a.toNat < b.toNat then true
    else if b.toNat < a.toNat then false
    else bytesLe as bs

/-- Python 2 `str <= str`: byte-lexicographic. -/
def pyStrLe (a b : String) : Bool := bytesLe a.toList b.toList

/-- Insert a pair into a key-sorted list of pairs, keeping it sorted. -/
def insertByKey (p : String × String) : List (String × String) → List (String × String)
  | [] => [p]
  | q :: qs => if pyStrLe p.1 q.1 then p :: q :: qs else q :: insertByKey p qs

/-- Python `sorted(extra_params.items())`: the parameter pairs sorted by
key (all keys here are distinct, so sorting by key is sorting the items). -/
def sortByKey (l : List (String × String)) : List (String × String) :=
  l.foldr insertByKey []

/-- Python `url.rstrip("/")`. -/
def rstripSlash (s : String) : String :=
  String.mk (s.toList.reverse.dropWhile (· = '/')).reverse

/-- An HTTP response as the transport returns it: `status_code` and
`content`. -/
structure Response where
  status_code : Int
  content : String
  deriving DecidableEq, Repr

/-- One outcome of a transport call: either it raises `ConnectionError` or
returns a response. -/
inductive TransportOutcome where
  | connError
  | response (r : Response)
  deriving DecidableEq, Repr

/-- A request handed to `http_connection.request(method, url, data=…,
headers=…)`. -/
structure HttpRequest where
  method : String
  url : String
  data : Option String
  headers : List (String × String)
  deriving DecidableEq, Repr

/-- The exceptions the transport layer can raise.  `typeError` is Python
`TypeError` (the spec's `AccessError`); `valueError` is Python
`ValueError` (the spec's `ValidationError`); `solrErrorResponse` is
`SolrError(response)` (the spec's `ProtocolError`); `solrErrorMsg` is
`SolrError(message)`; `connectionError` is the transport's
`ConnectionError` propagating. -/
inductive SolrExc where
  | typeError (msg : String)
  | valueError (msg : String)
  | solrErrorResponse (r : Response)
  | solrErrorMsg (msg : String)
  | connectionError
  deriving DecidableEq, Repr

/-- Observable side effects of a call: the requests actually passed to the
wrapped http connection (in order), the `time.sleep` durations performed,
and the `warnings.warn` messages emitted. -/
structure Trace where
  requests : List HttpRequest := []
  sleeps : List Int := []
  warnings : List String := []
  deriving DecidableEq, Repr

/-- The connection state set up by `SolrConnection.__init__`. -/
structure SolrConnection where
  readable : Bool
  writeable : Bool
  url : String
  update_url : String
  select_url : String
  mlt_url : String
  retry_timeout : Int
  max_length_get_url : Nat
  format : String
  deriving DecidableEq, Repr

/-- `SolrConnection.__init__`: mode `'r'` clears `writeable`, mode `'w'`
clears `readable`, anything else leaves both; the base url is
`url.rstrip("/") + "/"` and the three endpoint urls are derived from it. -/
def SolrConnection.init (url : String) (mode : String) (retry_timeout : Int)
    (max_length_get_url : Nat) (format : String) : SolrConnection :=
  let rw : Bool × Bool :=
    if mode = "r" then (true, false)
    else if mode = "w" then (false, true)
    else (true, true)
  let u := rstripSlash url ++ "/"
  { readable := rw.1
    writeable := rw.2
    url := u
    update_url := u ++ "update/"
    select_url := u ++ "select/"
    mlt_url := u ++ "mlt/"
    retry_timeout := retry_timeout
    max_length_get_url := max_length_get_url
    format := format }

/-- `extra_params[key] = "true" if b else "false"` when the modifier is not
`None`; no entry otherwise. -/
def addBoolParam (ps : List (String × String)) (key : String) :
    Option Bool → List (String × String)
  | none => ps
  | some b => ps ++ [(key, if b then "true" else "false")]

/-- The `commitWithin` handling in `url_for_update`: coerce with `int()`
(raising `ValueError("commitWithin should be a number in milliseconds")`
when the coercion raises), store `str(int(commitWithin))`, then perform
the source's check `extra_params['commitWithin'] < 0` — a Python 2
str-to-int comparison, which is always `False`. -/
def addCommitWithin (ps : List (String × String)) :
    Option PyVal → Except String (List (String × String))
  | none => .ok ps
  | some v =>
    match pyInt v with
    | none => .error "commitWithin should be a number in milliseconds"
    | some n =>
      let s := toString n
      if py2_str_lt_int s 0 then
        .error "commitWithin should be a number in milliseconds"
      else .ok (ps ++ [("commitWithin", s)])

/-- The `maxSegments` handling in `url_for_update`: coerce with `int()`
(raising `ValueError("maxSegments")` when the coercion raises), store
`str(int(maxSegments))`, then perform the source's check
`extra_params['maxSegments'] <= 0` — a Python 2 str-to-int comparison,
which is always `False`. -/
def addMaxSegments (ps : List (String × String)) :
    Option PyVal → Except String (List (String × String))
  | none => .ok ps
  | some v =>
    match pyInt v with
    | none => .error "maxSegments"
    | some n =>
      let s := toString n
      if py2_str_le_int s 0 then
        .error "maxSegments should be a positive number"
      else .ok (ps ++ [("maxSegments", s)])

/-- `key in extra_params` for the parameter list. -/
def hasKey (ps : List (String × String)) (key : String) : Bool :=
  ps.any fun p => p.1 = key

/-- The keyword arguments of `url_for_update` (each `none` when the Python
argument is `None`).  The boolean modifiers are rendered with
`"true" if x else "false"`; `commitWithin` and `maxSegments` go through
`int()`. -/
structure UpdateModifiers where
  commit : Option Bool := none
  commitWithin : Option PyVal := none
  softCommit : Option Bool := none
  optimize : Option Bool := none
  waitSearcher : Option Bool := none
  expungeDeletes : Option Bool := none
  maxSegments : Option PyVal := none
  deriving DecidableEq, Repr

/-- `SolrConnection.url_for_update`: build `extra_params` in source order,
raise on the modifier dependencies, and return either the bare update url
or the update url with the key-sorted, urlencoded parameters.  `.error m`
is `ValueError(m)`. -/
def SolrConnection.url_for_update (conn : SolrConnection) (m : UpdateModifiers) :
    Except String String := do
  let ps0 : List (String × String) := []
  let ps1 := addBoolParam ps0 "commit" m.commit
  let ps2 ← addCommitWithin ps1 m.commitWithin
  let ps3 := addBoolParam ps2 "softCommit" m.softCommit
  let ps4 := addBoolParam ps3 "optimize" m.optimize
  let ps5 := addBoolParam ps4 "waitSearcher" m.waitSearcher
  let ps6 := addBoolParam ps5 "expungeDeletes" m.expungeDeletes
  let ps7 ← addMaxSegments ps6 m.maxSegments
  if hasKey ps7 "expungeDeletes" && !hasKey ps7 "commit" then
    throw "Can't do expungeDeletes without commit"
  else if hasKey ps7 "maxSegments" && !hasKey ps7 "optimize" then
    throw "Can't do maxSegments without optimize"
  else if ps7.isEmpty then
    pure conn.update_url
  else
    pure (conn.update_url ++ "?" ++ urlencode (sortByKey ps7))

/-- `SolrConnection.request`: try the transport once; on `ConnectionError`,
propagate immediately if `retry_timeout < 0`, otherwise `time.sleep` the
retry timeout and try exactly once more (a second `ConnectionError`
propagates).  The transport's behaviour is a function from the attempt
index within this dispatch (0 = first try, 1 = retry) to an outcome. -/
def SolrConnection.request (conn : SolrConnection) (transport : Nat → TransportOutcome)
    (req : HttpRequest) : Trace × Except SolrExc Response :=
  match transport 0 with
  | .response r => ({ requests := [req] }, .ok r)
  | .connError =>
    if conn.retry_timeout < 0 then
      ({ requests := [req] }, .error .connectionError)
    else
      match transport 1 with
      | .response r =>
        ({ requests := [req, req], sleeps := [conn.retry_timeout] }, .ok r)
      | .connError =>
        ({ requests := [req, req], sleeps := [conn.retry_timeout] }, .error .connectionError)

/-- `SolrConnection.update`: refuse when not writeable
(`TypeError("This Solr instance is only for reading")`), set the XML
content-type header when the body is non-empty (Python truthiness of the
body string), build the update url (propagating its `ValueError`), POST
the body, and raise `SolrError(response)` on a non-200 status. -/
def SolrConnection.update (conn : SolrConnection) (transport : Nat → TransportOutcome)
    (update_doc : String) (m : UpdateModifiers) : Trace × Except SolrExc Unit :=
  if !conn.writeable then
    ({}, .error (.typeError "This Solr instance is only for reading"))
  else
    let headers := if update_doc ≠ "" then [("Content-Type", "text/xml; charset=utf-8")] else []
    match conn.url_for_update m with
    | .error msg => ({}, .error (.valueError msg))
    | .ok url =>
      let r := conn.request transport ⟨"POST", url, some update_doc, headers⟩
      (r.1,
        match r.2 with
        | .error e => .error e
        | .ok resp =>
          if resp.status_code ≠ 200 then .error (.solrErrorResponse resp)
          else .ok ())

/-- `SolrConnection.commit`: send `<commit/>` through `update` with
`commit=True` and the pass-through modifiers. -/
def SolrConnection.commit (conn : SolrConnection) (transport : Nat → TransportOutcome)
    (waitSearcher : Option Bool) (expungeDeletes : Option Bool) (softCommit : Option Bool) :
    Trace × Except SolrExc Unit :=
  conn.update transport "<commit/>"
    { commit := some true, waitSearcher := waitSearcher,
      expungeDeletes := expungeDeletes, softCommit := softCommit }

/-- `SolrConnection.optimize`: send `<optimize/>` through `update` with
`optimize=True` and the pass-through modifiers. -/
def SolrConnection.optimize (conn : SolrConnection) (transport : Nat → TransportOutcome)
    (waitSearcher : Option Bool) (maxSegments : Option PyVal) :
    Trace × Except SolrExc Unit :=
  conn.update transport "<optimize/>"
    { optimize := some true, waitSearcher := waitSearcher, maxSegments := maxSegments }

/-- `SolrConnection.rollback`: send `<rollback/>` through `update` with no
modifiers. -/
def SolrConnection.rollback (conn : SolrConnection) (transport : Nat → TransportOutcome) :
    Trace × Except SolrExc Unit :=
  conn.update transport "<rollback/>" {}

/-- The message of the `warnings.warn` call in `select`. -/
def longQueryWarning : String :=
  "Long query URL encountered - POSTing instead of GETting. This query will not be cached at the HTTP layer"

/-- The select params after the format adjustment: `wt=json` is appended
when the configured format is json (line 107-108). -/
def selectParams (conn : SolrConnection) (params : List (String × String)) :
    List (String × String) :=
  if conn.format = "json" then params ++ [("wt", "json")] else params

/-- `qs = urllib.urlencode(params)` in `select` (line 109). -/
def selectQs (conn : SolrConnection) (params : List (String × String)) : String :=
  urlencode (selectParams conn params)

/-- `url = "%s?%s" % (self.select_url, qs)` in `select` (line 110). -/
def selectUrl (conn : SolrConnection) (params : List (String × String)) : String :=
  conn.select_url ++ "?" ++ selectQs conn params

/-- `SolrConnection.select`: refuse when not readable
(`TypeError("This Solr instance is only for writing")`), append
`wt=json` when the format is json, build the GET url; when its byte
length exceeds `max_length_get_url`, warn and POST the query string as a
form-urlencoded body against the bare select url, otherwise GET.  Raise
`SolrError(response)` on a non-200 status, else return the content. -/
def SolrConnection.select (conn : SolrConnection) (transport : Nat → TransportOutcome)
    (params : List (String × String)) : Trace × Except SolrExc String :=
  if !conn.readable then
    ({}, .error (.typeError "This Solr instance is only for writing"))
  else
    let qs := selectQs conn params
    let url := selectUrl conn params
    let plan : List String × HttpRequest :=
      if url.length > conn.max_length_get_url then
        ([longQueryWarning],
          ⟨"POST", conn.select_url, some qs,
            [("Content-Type", "application/x-www-form-urlencoded")]⟩)
      else
        ([], ⟨"GET", url, none, []⟩)
    let r := conn.request transport plan.2
    ({ r.1 with warnings := plan.1 ++ r.1.warnings },
      match r.2 with
      | .error e => .error e
      | .ok resp =>
        if resp.status_code ≠ 200 then .error (.solrErrorResponse resp)
        else .ok resp.content)

/-- `base_url = "%s?%s" % (self.mlt_url, urlencode(params))` in `mlt`
(lines 133-134). -/
def mltBaseUrl (conn : SolrConnection) (params : List (String × String)) : String :=
  conn.mlt_url ++ "?" ++ urlencode params

/-- `get_url = "%s&stream.body=%s" % (base_url, quote_plus(content))` in
`mlt` (line 140). -/
def mltGetUrl (conn : SolrConnection) (params : List (String × String)) (c : String) : String :=
  mltBaseUrl conn params ++ "&stream.body=" ++ quote_plus c

/-- `SolrConnection.mlt`: refuse when not readable, build
`mlt_url?params`; with no content, GET that url; with content, try
embedding it as `stream.body` on the GET url, and when that exceeds the
length ceiling, POST the raw content (as `text/plain`) against the
parameterised base url.  Raise `SolrError(response)` on a non-200 status,
else return the content. -/
def SolrConnection.mlt (conn : SolrConnection) (transport : Nat → TransportOutcome)
    (params : List (String × String)) (content : Option String) :
    Trace × Except SolrExc String :=
  if !conn.readable then
    ({}, .error (.typeError "This Solr instance is only for writing"))
  else
    let base_url := mltBaseUrl conn params
    let req : HttpRequest :=
      match content with
      | none => ⟨"GET", base_url, none, []⟩
      | some c =>
        if (mltGetUrl conn params c).length ≤ conn.max_length_get_url then
          ⟨"GET", mltGetUrl conn params c, none, []⟩
        else
          ⟨"POST", base_url, some c, [("Content-Type", "text/plain; charset=utf-8")]⟩
    let r := conn.request transport req
    (r.1,
      match r.2 with
      | .error e => .error e
      | .ok resp =>
        if resp.status_code ≠ 200 then .error (.solrErrorResponse resp)
        else .ok resp.content)

/-- `grouper(iterable, n)`: repeatedly slice off the next `n` items and
yield each non-empty slice; with `n = 0` the first slice is already empty
and nothing is yielded. -/
def grouper (n : Nat) : List α → List (List α)
  | [] => []
  | x :: xs =>
    if _h : n = 0 then []
    else (x :: xs).take n :: grouper n ((x :: xs).drop n)
termination_by l => l.length
decreasing_by
  simp only [List.length_drop, List.length_cons]
  omega

/-- A Python value passed as `docs`/`queries` to the facade: `None`, a
string, a list, or a mapping (dict-like, i.e. it has `.items`). -/
inductive PyArg where
  | pyNone
  | pyStr (s : String)
  | pyList (l : List PyArg)
  | pyDict (d : List (String × String))
  deriving Repr

/-- Python truthiness: `None` is falsy; strings, lists and dicts are falsy
exactly when empty. -/
def PyArg.truthy : PyArg → Bool
  | .pyNone => false
  | .pyStr s => !s.isEmpty
  | .pyList l => !l.isEmpty
  | .pyDict d => !d.isEmpty

/-- `hasattr(x, "items")`: true exactly for mapping-like values. -/
def PyArg.hasItems : PyArg → Bool
  | .pyDict _ => true
  | _ => false

/-- `hasattr(x, "__iter__")`: strings, lists and dicts are iterable;
`None` is not. -/
def PyArg.hasIter : PyArg → Bool
  | .pyNone => false
  | _ => true

/-- `x is None`. -/
def PyArg.isNone : PyArg → Bool
  | .pyNone => true
  | _ => false

/-- Iterating a `docs` value after the facade's wrap check: a list yields
its elements, a string yields its one-character substrings, a dict yields
its keys (dicts never reach this point in `add`, having been wrapped). -/
def PyArg.toSeq : PyArg → List PyArg
  | .pyNone => []
  | .pyStr s => s.toList.map fun c => PyArg.pyStr (String.mk [c])
  | .pyList l => l
  | .pyDict d => d.map fun kv => PyArg.pyStr kv.1

/-- The `docs` normalization shared by `SolrInterface.add` and `delete`:
a mapping-like or non-iterable value becomes the one-element list
`[docs]`; anything else is used as the sequence it already is. -/
def normalizeDocs (docs : PyArg) : List PyArg :=
  if docs.hasItems || !docs.hasIter then [docs] else docs.toSeq

/-- Run `conn.update` on each serialized chunk in order, aborting on the
first error (there is no partial-success handling in `add`). -/
def addChunks (conn : SolrConnection) (transport : Nat → TransportOutcome)
    (make_update : List PyArg → String) (m : UpdateModifiers) :
    List (List PyArg) → Trace × Except SolrExc Unit
  | [] => ({}, .ok ())
  | c :: cs =>
    let r := conn.update transport (make_update c) m
    match r.2 with
    | .error e => (r.1, .error e)
    | .ok _ =>
      let rest := addChunks conn transport make_update m cs
      ({ requests := r.1.requests ++ rest.1.requests,
         sleeps := r.1.sleeps ++ rest.1.sleeps,
         warnings := r.1.warnings ++ rest.1.warnings }, rest.2)

/-- `SolrInterface.add`: normalize `docs`, split into chunks of `chunk`
documents with `grouper`, serialize each chunk with the (external) schema
component, and send each through `conn.update`. -/
def SolrInterface.add (conn : SolrConnection) (transport : Nat → TransportOutcome)
    (make_update : List PyArg → String) (docs : PyArg) (chunk : Nat) (m : UpdateModifiers) :
    Trace × Except SolrExc Unit :=
  addChunks conn transport make_update m (grouper chunk (normalizeDocs docs))

/-- `SolrInterface.delete`: raise
`SolrError("No docs or query specified for deletion")` when both `docs`
and `queries` are falsy; otherwise normalize `docs` (wrapping a non-None
mapping-like or non-iterable value), serialize the delete message with
the (external) schema component, and send it through `conn.update`. -/
def SolrInterface.delete (conn : SolrConnection) (transport : Nat → TransportOutcome)
    (make_delete : List PyArg → PyArg → String) (docs : PyArg) (queries : PyArg)
    (m : UpdateModifiers) : Trace × Except SolrExc Unit :=
  if !docs.truthy && !queries.truthy then
    ({}, .error (.solrErrorMsg "No docs or query specified for deletion"))
  else
    let docs2 : List PyArg :=
      if !docs.isNone && (docs.hasItems || !docs.hasIter) then [docs] else docs.toSeq
    conn.update transport (make_delete docs2 queries) m

/-- `SolrInterface.search`: build params externally, run `conn.select`,
and hand the payload to the (external) schema parser. -/
def SolrInterface.search (conn : SolrConnection) (transport : Nat → TransportOutcome)
    (parse_response : String → String) (params : List (String × String)) :
    Trace × Except SolrExc String :=
  let r := conn.select transport params
  (r.1,
    match r.2 with
    | .error e => .error e
    | .ok c => .ok (parse_response c))

/-! Concrete fixtures used to instantiate the theorems. -/

/-- A read-write connection with the default configuration
(`mode=''`, `retry_timeout=-1`, `max_length_get_url=2048`, xml). -/
def testConn : SolrConnection :=
  SolrConnection.init "http://localhost:8983/solr" "" (-1) 2048 "xml"

/-- A read-write connection with a positive retry timeout of 5 seconds. -/
def testConnRetry : SolrConnection :=
  SolrConnection.init "http://localhost:8983/solr" "" 5 2048 "xml"

/-- A read-only connection (`mode='r'`). -/
def testConnR : SolrConnection :=
  SolrConnection.init "http://localhost:8983/solr" "r" (-1) 2048 "xml"

/-- A write-only connection (`mode='w'`). -/
def testConnW : SolrConnection :=
  SolrConnection.init "http://localhost:8983/solr" "w" (-1) 2048 "xml"

/-- A read-write connection with a tiny GET-url ceiling of 20 bytes. -/
def testConnSmall : SolrConnection :=
  SolrConnection.init "http://h" "" (-1) 20 "xml"

/-- A transport that always answers status 200. -/
def transport200 : Nat → TransportOutcome :=
  fun _ => .response ⟨200, "ok"⟩

/-- A transport that always answers status 500. -/
def transport500 : Nat → TransportOutcome :=
  fun _ => .response ⟨500, "Internal Server Error"⟩

/-- A transport whose first attempt raises `ConnectionError` and whose
retry answers status 200. -/
def transportFlaky : Nat → TransportOutcome :=
  fun i => if i = 0 then .connError else .response ⟨200, "ok"⟩

/-- A transport that always raises `ConnectionError`. -/
def transportDown : Nat → TransportOutcome :=
  fun _ => .connError

/-- A stand-in for the schema component's `make_update`. -/
def testMakeUpdate : List PyArg → String := fun _ => "<add/>"

/-- A stand-in for the schema component's `make_delete`. -/
def testMakeDelete : List PyArg → PyArg → String := fun _ _ => "<delete/>"

/-- A sample request for exercising the retry wrapper. -/
def testReq : HttpRequest := ⟨"GET", "http://localhost:8983/solr/select/?q=x", none, []⟩

/-! Helper lemmas about the retry wrapper. -/

/-- When the first transport attempt returns a response, `request` makes
exactly that one call and returns the response. -/
theorem request_first_response (conn : SolrConnection) (transport : Nat → TransportOutcome)
    (req : HttpRequest) (r : Response) (h0 : transport 0 = .response r) :
    conn.request transport req = ({ requests := [req] }, .ok r) := by
  simp [SolrConnection.request, h0]

/-- The retry wrapper always issues one or two copies of the same request,
performs no warning, and sleeps only on retry. -/
theorem request_shape (conn : SolrConnection) (transport : Nat → TransportOutcome)
    (req : HttpRequest) :
    ((conn.request transport req).1.requests = [req] ∨
      (conn.request transport req).1.requests = [req, req]) ∧
    (conn.request transport req).1.warnings = [] := by
  cases h0 : transport 0 with
  | connError =>
    by_cases hrt : conn.retry_timeout < 0
    · simp [SolrConnection.request, h0, hrt]
    · cases h1 : transport 1 <;> simp [SolrConnection.request, h0, h1, hrt]
  | response r => simp [SolrConnection.request, h0]

/-- A list known to be `[req]` or `[req, req]` is non-empty and all its
members are `req`. -/
theorem shape_forall {req : HttpRequest} {l : List HttpRequest}
    (h : l = [req] ∨ l = [req, req]) : l ≠ [] ∧ ∀ x ∈ l, x = req := by
  rcases h with h | h <;> subst h <;> simp

/-- C4: on a transport connection failure, if the retry delay is ≥ 0 the
dispatcher sleeps exactly that delay and retries exactly once — a second
failure propagates, a second success is returned; if the retry delay is
< 0, the first failure propagates with no second attempt; in every case
at most two transport attempts are made. -/
theorem request_single_retry (conn : SolrConnection) (transport : Nat → TransportOutcome)
    (req : HttpRequest) :
    (transport 0 = .connError → 0 ≤ conn.retry_timeout →
      (conn.request transport req).1.sleeps = [conn.retry_timeout] ∧
      (conn.request transport req).1.requests = [req, req] ∧
      (transport 1 = .connError →
        (conn.request transport req).2 = .error .connectionError) ∧
      (∀ r, transport 1 = .response r → (conn.request transport req).2 = .ok r)) ∧
    (transport 0 = .connError → conn.retry_timeout < 0 →
      conn.request transport req = ({ requests := [req] }, .error .connectionError)) ∧
    (conn.request transport req).1.requests.length ≤ 2 := by
  refine ⟨?_, ?_, ?_⟩
  · intro h0 hge
    have hrt : ¬ conn.retry_timeout < 0 := not_lt.mpr hge
    cases h1 : transport 1 with
    | connError =>
      refine ⟨?_, ?_, ?_, ?_⟩ <;> simp [SolrConnection.request, h0, h1, hrt]
    | response r =>
      refine ⟨?_, ?_, ?_, ?_⟩ <;> simp [SolrConnection.request, h0, h1, hrt]
  · intro h0 hrt
    simp [SolrConnection.request, h0, hrt]
  · cases h0 : transport 0 with
    | connError =>
      by_cases hrt : conn.retry_timeout < 0
      · simp [SolrConnection.request, h0, hrt]
      · cases h1 : transport 1 <;> simp [SolrConnection.request, h0, h1, hrt]
    | response r => simp [SolrConnection.request, h0]

/-- Witness for C4: with a 5-second retry delay and a transport that fails
once then succeeds, the dispatcher sleeps 5 seconds and succeeds; with
retry delay -1 and a failing transport, the failure propagates after a
single attempt. -/
theorem request_single_retry_witness :
    (testConnRetry.request transportFlaky testReq).1.sleeps = [(5 : Int)] ∧
    (testConnRetry.request transportFlaky testReq).2 = .ok ⟨200, "ok"⟩ ∧
    testConn.request transportDown testReq =
      ({ requests := [testReq] }, .error .connectionError) := by
  refine ⟨?_, ?_, ?_⟩
  · exact ((request_single_retry testConnRetry transportFlaky testReq).1 rfl (by decide)).1
  · exact ((request_single_retry testConnRetry transportFlaky testReq).1 rfl
      (by decide)).2.2.2 ⟨200, "ok"⟩ rfl
  · exact (request_single_retry testConn transportDown testReq).2.1 rfl (by decide)

/-- C1 (the code at the recorded failing input): a non-negative
integer-coercible `commitWithin` is accepted and encoded; but a negative
one is accepted and encoded as well — the source's check
`extra_params['commitWithin'] < 0` compares the stored *string* with an
int, which in Python 2 is always `False` — and only a non-coercible value
raises `ValueError`. -/
theorem commitWithin_negative_accepted :
    testConn.url_for_update { commitWithin := some (.pInt 10) } =
      .ok "http://localhost:8983/solr/update/?commitWithin=10" ∧
    testConn.url_for_update { commitWithin := some (.pInt (-1)) } =
      .ok "http://localhost:8983/solr/update/?commitWithin=-1" ∧
    testConn.url_for_update { commitWithin := some .pNone } =
      .error "commitWithin should be a number in milliseconds" := by
  refine ⟨by decide, by decide, by decide⟩

/-- C2 (the code at the recorded failing input): a positive
integer-coercible `maxSegments` is accepted and encoded; but zero and
negative values are accepted and encoded as well — the source's check
`extra_params['maxSegments'] <= 0` compares the stored *string* with an
int, which in Python 2 is always `False` — and only a non-coercible value
raises `ValueError`. -/
theorem maxSegments_nonpositive_accepted :
    testConn.url_for_update { optimize := some true, maxSegments := some (.pInt 2) } =
      .ok "http://localhost:8983/solr/update/?maxSegments=2&optimize=true" ∧
    testConn.url_for_update { optimize := some true, maxSegments := some (.pInt 0) } =
      .ok "http://localhost:8983/solr/update/?maxSegments=0&optimize=true" ∧
    testConn.url_for_update { optimize := some true, maxSegments := some (.pInt (-3)) } =
      .ok "http://localhost:8983/solr/update/?maxSegments=-3&optimize=true" ∧
    testConn.url_for_update { optimize := some true, maxSegments := some .pNone } =
      .error "maxSegments" := by
  refine ⟨by decide, by decide, by decide, by decide⟩

/-- C10: the facade's `delete` raises
`SolrError("No docs or query specified for deletion")` whenever both
`docs` and `queries` are falsy — the guard tests truthiness of the
values, not absence of the arguments, so an explicitly supplied empty
list of docs raises too. -/
theorem delete_guard_on_falsy (conn : SolrConnection) (transport : Nat → TransportOutcome)
    (mkd : List PyArg → PyArg → String) (docs queries : PyArg) (m : UpdateModifiers) :
    (docs.truthy = false → queries.truthy = false →
      SolrInterface.delete conn transport mkd docs queries m =
        ({}, .error (.solrErrorMsg "No docs or query specified for deletion"))) ∧
    SolrInterface.delete conn transport mkd (.pyList []) .pyNone m =
      ({}, .error (.solrErrorMsg "No docs or query specified for deletion")) := by
  constructor
  · intro hd hq
    simp [SolrInterface.delete, hd, hq]
  · simp [SolrInterface.delete, PyArg.truthy]

/-- Witness for C10: `delete(docs=[], queries=None)` and
`delete(docs="", queries={})` both raise the validation error. -/
theorem delete_guard_on_falsy_witness :
    SolrInterface.delete testConn transport200 testMakeDelete (.pyList []) .pyNone {} =
      ({}, .error (.solrErrorMsg "No docs or query specified for deletion")) ∧
    SolrInterface.delete testConn transport200 testMakeDelete (.pyStr "") (.pyDict []) {} =
      ({}, .error (.solrErrorMsg "No docs or query specified for deletion")) := by
  refine ⟨?_, ?_⟩
  · exact (delete_guard_on_falsy testConn transport200 testMakeDelete (.pyList []) .pyNone {}).2
  · exact (delete_guard_on_falsy testConn transport200 testMakeDelete
      (.pyStr "") (.pyDict []) {}).1 rfl rfl

/-- Unfolding of `select` for a readable connection. -/
theorem select_unfold (conn : SolrConnection) (transport : Nat → TransportOutcome)
    (params : List (String × String)) (hr : conn.readable = true) :
    conn.select transport params =
      (let plan : List String × HttpRequest :=
        if (selectUrl conn params).length > conn.max_length_get_url then
          ([longQueryWarning],
            ⟨"POST", conn.select_url, some (selectQs conn params),
              [("Content-Type", "application/x-www-form-urlencoded")]⟩)
        else ([], ⟨"GET", selectUrl conn params, none, []⟩)
      let r := conn.request transport plan.2
      ({ r.1 with warnings := plan.1 ++ r.1.warnings },
        match r.2 with
        | .error e => .error e
        | .ok resp =>
          if resp.status_code ≠ 200 then .error (.solrErrorResponse resp)
          else .ok resp.content)) := by
  simp [SolrConnection.select, hr]

/-- C3: for a readable connection, when the encoded GET url's length is at
most the ceiling (including exactly the ceiling) the request is issued as
GET to that url with no body and no warning; when it exceeds the ceiling
a warning is emitted and the request is issued as POST to the bare select
url with the query string as body and the form-urlencoded content type. -/
theorem select_get_post_boundary (conn : SolrConnection) (transport : Nat → TransportOutcome)
    (params : List (String × String)) (hr : conn.readable = true) :
    ((selectUrl conn params).length ≤ conn.max_length_get_url →
      (conn.select transport params).1.warnings = [] ∧
      (conn.select transport params).1.requests ≠ [] ∧
      ∀ r ∈ (conn.select transport params).1.requests,
        r = ⟨"GET", selectUrl conn params, none, []⟩) ∧
    (conn.max_length_get_url < (selectUrl conn params).length →
      (conn.select transport params).1.warnings = [longQueryWarning] ∧
      (conn.select transport params).1.requests ≠ [] ∧
      ∀ r ∈ (conn.select transport params).1.requests,
        r = ⟨"POST", conn.select_url, some (selectQs conn params),
             [("Content-Type", "application/x-www-form-urlencoded")]⟩) := by
  constructor
  · intro hle
    have hlen : ¬ ((selectUrl conn params).length > conn.max_length_get_url) :=
      not_lt.mpr hle
    obtain ⟨hshape, hwarn⟩ :=
      request_shape conn transport ⟨"GET", selectUrl conn params, none, []⟩
    obtain ⟨hne, hall⟩ := shape_forall hshape
    rw [select_unfold conn transport params hr]
    simp only [hlen, if_false]
    exact ⟨by simp [hwarn], by simpa using hne, by simpa using hall⟩
  · intro hgt
    have hlen : (selectUrl conn params).length > conn.max_length_get_url := hgt
    obtain ⟨hshape, hwarn⟩ := request_shape conn transport
      ⟨"POST", conn.select_url, some (selectQs conn params),
        [("Content-Type", "application/x-www-form-urlencoded")]⟩
    obtain ⟨hne, hall⟩ := shape_forall hshape
    rw [select_unfold conn transport params hr]
    simp only [hlen, if_true]
    exact ⟨by simp [hwarn], by simpa using hne, by simpa using hall⟩

/-- Witness for C3: with a 20-byte ceiling, a 20-byte url (exactly the
ceiling) goes out as a GET with no warning, and a 21-byte url goes out as
a POST of the query string with the warning. -/
theorem select_get_post_boundary_witness :
    (testConnSmall.select transport200 [("q", "x")]).1.warnings = [] ∧
    (testConnSmall.select transport200 [("q", "x")]).1.requests ≠ [] ∧
    (testConnSmall.select transport200 [("q", "xx")]).1.warnings = [longQueryWarning] ∧
    (testConnSmall.select transport200 [("q", "xx")]).1.requests ≠ [] := by
  have h1 := (select_get_post_boundary testConnSmall transport200 [("q", "x")] rfl).1
    (by decide)
  have h2 := (select_get_post_boundary testConnSmall transport200 [("q", "xx")] rfl).2
    (by decide)
  exact ⟨h1.1, h1.2.1, h2.1, h2.2.1⟩

/-- C7: when the transport's first attempt returns a non-200 response,
`update`, `select` and `mlt` all raise `SolrError(response)` carrying
that response, after exactly one transport call and no sleep (the retry
applies only to connection failures). -/
theorem non200_raises_protocol_error (conn : SolrConnection)
    (transport : Nat → TransportOutcome) (resp : Response) (doc u : String)
    (m : UpdateModifiers) (params : List (String × String)) (content : Option String)
    (h0 : transport 0 = .response resp) (hs : resp.status_code ≠ 200) :
    (conn.writeable = true → conn.url_for_update m = .ok u →
      (conn.update transport doc m).2 = .error (.solrErrorResponse resp) ∧
      (conn.update transport doc m).1.requests.length = 1 ∧
      (conn.update transport doc m).1.sleeps = []) ∧
    (conn.readable = true →
      (conn.select transport params).2 = .error (.solrErrorResponse resp) ∧
      (conn.select transport params).1.requests.length = 1 ∧
      (conn.select transport params).1.sleeps = []) ∧
    (conn.readable = true →
      (conn.mlt transport params content).2 = .error (.solrErrorResponse resp) ∧
      (conn.mlt transport params content).1.requests.length = 1 ∧
      (conn.mlt transport params content).1.sleeps = []) := by
  refine ⟨?_, ?_, ?_⟩
  · intro hw hurl
    simp only [SolrConnection.update, hw, Bool.not_true, if_false, hurl]
    rw [request_first_response _ _ _ _ h0]
    simp [hs]
  · intro hr
    rw [select_unfold conn transport params hr]
    simp only []
    rw [request_first_response _ _ _ _ h0]
    simp [hs]
  · intro hr
    simp only [SolrConnection.mlt, hr, Bool.not_true, if_false]
    rw [request_first_response _ _ _ _ h0]
    simp [hs]

/-- Witness for C7: against a transport that always answers 500, `update`
and `select` fail with the protocol error carrying the 500 response after
one transport call. -/
theorem non200_raises_protocol_error_witness :
    (testConn.update transport500 "<commit/>" {}).2 =
      .error (.solrErrorResponse ⟨500, "Internal Server Error"⟩) ∧
    (testConn.select transport500 [("q", "x")]).2 =
      .error (.solrErrorResponse ⟨500, "Internal Server Error"⟩) ∧
    (testConn.select transport500 [("q", "x")]).1.requests.length = 1 := by
  have h := non200_raises_protocol_error testConn transport500
    ⟨500, "Internal Server Error"⟩ "<commit/>" testConn.update_url {} [("q", "x")] none
    rfl (by decide)
  exact ⟨(h.1 rfl (by decide)).1, (h.2.1 rfl).1, (h.2.1 rfl).2.1⟩

/-- Counterexample to C9: when an oversized moreLikeThis request switches
to POST, the url actually sent is the parameterised base url
`http://h/mlt/?q=x` — it still carries the encoded query parameters, not
the bare mlt url. -/
theorem mlt_post_url_keeps_params :
    (testConnSmall.mlt transport200 [("q", "x")] (some "abcdefghij")).1.requests =
      [⟨"POST", "http://h/mlt/?q=x", some "abcdefghij",
        [("Content-Type", "text/plain; charset=utf-8")]⟩] ∧
    "http://h/mlt/?q=x" ≠ testConnSmall.mlt_url := by
  exact ⟨by decide, by decide⟩

/-- C9 amended: on the POST fallback, `select` sends the bare select url
and all parameters travel only in the body; `mlt` keeps the encoded query
parameters in the url it sends and moves only the content to the body. -/
theorem post_fallback_urls (conn : SolrConnection) (transport : Nat → TransportOutcome)
    (params : List (String × String)) (c : String) (hr : conn.readable = true)
    (hsel : conn.max_length_get_url < (selectUrl conn params).length)
    (hmlt : conn.max_length_get_url < (mltGetUrl conn params c).length) :
    (∀ r ∈ (conn.select transport params).1.requests,
      r = ⟨"POST", conn.select_url, some (selectQs conn params),
           [("Content-Type", "application/x-www-form-urlencoded")]⟩) ∧
    (∀ r ∈ (conn.mlt transport params (some c)).1.requests,
      r = ⟨"POST", mltBaseUrl conn params, some c,
           [("Content-Type", "text/plain; charset=utf-8")]⟩) := by
  constructor
  · obtain ⟨hshape, _⟩ := request_shape conn transport
      ⟨"POST", conn.select_url, some (selectQs conn params),
        [("Content-Type", "application/x-www-form-urlencoded")]⟩
    obtain ⟨_, hall⟩ := shape_forall hshape
    rw [select_unfold conn transport params hr]
    simp only [hsel, if_true]
    simpa using hall
  · have hgt : ¬ ((mltGetUrl conn params c).length ≤ conn.max_length_get_url) :=
      not_le.mpr hmlt
    obtain ⟨hshape, _⟩ := request_shape conn transport
      ⟨"POST", mltBaseUrl conn params, some c,
        [("Content-Type", "text/plain; charset=utf-8")]⟩
    obtain ⟨_, hall⟩ := shape_forall hshape
    simp only [SolrConnection.mlt, hr, Bool.not_true, if_false, hgt]
    simpa using hall

/-- Witness for C9 amended: at the tiny ceiling, the oversized select POST
goes to the bare select url with the query string as body, and the
oversized mlt POST goes to the parameterised base url with the content as
body. -/
theorem post_fallback_urls_witness :
    (⟨"POST", "http://h/select/", some "q=xx",
      [("Content-Type", "application/x-www-form-urlencoded")]⟩ : HttpRequest) =
      ⟨"POST", testConnSmall.select_url, some (selectQs testConnSmall [("q", "xx")]),
        [("Content-Type", "application/x-www-form-urlencoded")]⟩ ∧
    (⟨"POST", "http://h/mlt/?q=xx", some "abcdefghij",
      [("Content-Type", "text/plain; charset=utf-8")]⟩ : HttpRequest) =
      ⟨"POST", mltBaseUrl testConnSmall [("q", "xx")], some "abcdefghij",
        [("Content-Type", "text/plain; charset=utf-8")]⟩ := by
  have h := post_fallback_urls testConnSmall transport200 [("q", "xx")] "abcdefghij"
    rfl (by decide) (by decide)
  exact ⟨h.1 _ (by decide), h.2 _ (by decide)⟩

/-! Helper lemmas about the batcher `grouper`. -/

/-- `grouper` on the empty sequence yields no chunks. -/
theorem grouper_nil {α : Type} (n : Nat) : grouper n ([] : List α) = [] := by
  simp [grouper]

/-- Unfolding of `grouper` on a non-empty list with non-zero chunk size. -/
theorem grouper_cons {α : Type} (n : Nat) (hn : n ≠ 0) (x : α) (xs : List α) :
    grouper n (x :: xs) = (x :: xs).take n :: grouper n ((x :: xs).drop n) := by
  simp [grouper, hn]

/-- The chunks of `grouper` concatenate back to the input, in order. -/
theorem grouper_join {α : Type} (n : Nat) (hn : n ≠ 0) :
    ∀ l : List α, (grouper n l).flatten = l
  | [] => by simp [grouper]
  | x :: xs => by
    rw [grouper_cons n hn x xs, List.flatten_cons,
      grouper_join n hn ((x :: xs).drop n), List.take_append_drop]
termination_by l => l.length
decreasing_by simp only [List.length_drop, List.length_cons]; omega

/-- Every chunk `grouper` yields is non-empty and no longer than `n`. -/
theorem grouper_mem {α : Type} (n : Nat) (hn : n ≠ 0) :
    ∀ l : List α, ∀ g ∈ grouper n l, g ≠ [] ∧ g.length ≤ n
  | [] => by simp [grouper]
  | x :: xs => by
    intro g hg
    rw [grouper_cons n hn x xs] at hg
    rcases List.mem_cons.mp hg with rfl | hmem
    · obtain ⟨m, rfl⟩ := Nat.exists_eq_succ_of_ne_zero hn
      refine ⟨by simp, ?_⟩
      rw [List.length_take]
      exact Nat.min_le_left _ _
    · exact grouper_mem n hn ((x :: xs).drop n) g hmem
termination_by l => l.length
decreasing_by simp only [List.length_drop, List.length_cons]; omega

/-- Every chunk except possibly the last has length exactly `n`. -/
theorem grouper_dropLast_len {α : Type} (n : Nat) (hn : n ≠ 0) :
    ∀ l : List α, ∀ g ∈ (grouper n l).dropLast, g.length = n
  | [] => by simp [grouper]
  | x :: xs => by
    intro g hg
    rw [grouper_cons n hn x xs] at hg
    rcases hR : grouper n ((x :: xs).drop n) with _ | ⟨r, rs⟩
    · rw [hR] at hg
      simp at hg
    · rw [hR] at hg
      have hdl : ((x :: xs).take n :: r :: rs).dropLast =
          (x :: xs).take n :: (r :: rs).dropLast := rfl
      rw [hdl] at hg
      rcases List.mem_cons.mp hg with rfl | hmem
      · have hd : (x :: xs).drop n ≠ [] := by
          intro hnil
          rw [hnil, grouper_nil] at hR
          exact List.cons_ne_nil r rs hR.symm
        have hlen : n < (x :: xs).length := by
          rcases Nat.lt_or_ge n (x :: xs).length with h | h
          · exact h
          · exact absurd (List.drop_eq_nil_of_le h) hd
        rw [List.length_take, List.length_cons] at *
        omega
      · have ih := grouper_dropLast_len n hn ((x :: xs).drop n)
        rw [hR] at ih
        exact ih g hmem
termination_by l => l.length
decreasing_by simp only [List.length_drop, List.length_cons]; omega

/-- C8: for every finite input and chunk size n > 0, `grouper` yields
consecutive groups whose concatenation is the input, each group non-empty
and of length at most n, every group but the last of length exactly n; an
empty input yields no groups; and chunking ten items with n = 3 yields
groups of sizes 3, 3, 3, 1. -/
theorem grouper_chunking (α : Type) (l : List α) (n : Nat) (hn : 0 < n) :
    (grouper n l).flatten = l ∧
    (∀ g ∈ grouper n l, g ≠ [] ∧ g.length ≤ n) ∧
    (∀ g ∈ (grouper n l).dropLast, g.length = n) ∧
    grouper n ([] : List α) = [] ∧
    (grouper 3 [0, 1, 2, 3, 4, 5, 6, 7, 8, 9]).map List.length = [3, 3, 3, 1] := by
  have hn' : n ≠ 0 := Nat.pos_iff_ne_zero.mp hn
  exact ⟨grouper_join n hn' l, grouper_mem n hn' l, grouper_dropLast_len n hn' l,
    grouper_nil n, by simp [grouper]⟩

/-- Witness for C8: chunking the ten naturals 0..9 with n = 3. -/
theorem grouper_chunking_witness :
    (grouper 3 [0, 1, 2, 3, 4, 5, 6, 7, 8, 9]).flatten = [0, 1, 2, 3, 4, 5, 6, 7, 8, 9] ∧
    grouper 3 ([] : List Nat) = [] ∧
    (grouper 3 [0, 1, 2, 3, 4, 5, 6, 7, 8, 9]).map List.length = [3, 3, 3, 1] := by
  have h := grouper_chunking Nat [0, 1, 2, 3, 4, 5, 6, 7, 8, 9] 3 (by decide)
  exact ⟨h.1, h.2.2.2.1, h.2.2.2.2⟩

/-- C6: a connection opened with mode 'r' refuses update — and hence
commit, optimize, rollback, delete (when its guard passes) and add (when
it has at least one chunk) — with
`TypeError("This Solr instance is only for reading")` and an empty trace,
i.e. before any transport call; one opened with mode 'w' refuses select
and mlt — and hence search — with
`TypeError("This Solr instance is only for writing")` and an empty
trace. -/
theorem mode_checks_precede_transport (u fmt : String) (rt : Int) (mx : Nat)
    (transport : Nat → TransportOutcome) (doc : String) (m : UpdateModifiers)
    (ws ed sc : Option Bool) (msv : Option PyVal)
    (mku : List PyArg → String) (mkd : List PyArg → PyArg → String)
    (pr : String → String) (docs queries : PyArg) (chunk : Nat)
    (params : List (String × String)) (content : Option String) :
    (SolrConnection.init u "r" rt mx fmt).update transport doc m =
      ({}, .error (.typeError "This Solr instance is only for reading")) ∧
    (SolrConnection.init u "r" rt mx fmt).commit transport ws ed sc =
      ({}, .error (.typeError "This Solr instance is only for reading")) ∧
    (SolrConnection.init u "r" rt mx fmt).optimize transport ws msv =
      ({}, .error (.typeError "This Solr instance is only for reading")) ∧
    (SolrConnection.init u "r" rt mx fmt).rollback transport =
      ({}, .error (.typeError "This Solr instance is only for reading")) ∧
    ((docs.truthy || queries.truthy) = true →
      SolrInterface.delete (SolrConnection.init u "r" rt mx fmt) transport mkd docs queries m =
        ({}, .error (.typeError "This Solr instance is only for reading"))) ∧
    (chunk ≠ 0 → (normalizeDocs docs).isEmpty = false →
      SolrInterface.add (SolrConnection.init u "r" rt mx fmt) transport mku docs chunk m =
        ({}, .error (.typeError "This Solr instance is only for reading"))) ∧
    (SolrConnection.init u "w" rt mx fmt).select transport params =
      ({}, .error (.typeError "This Solr instance is only for writing")) ∧
    (SolrConnection.init u "w" rt mx fmt).mlt transport params content =
      ({}, .error (.typeError "This Solr instance is only for writing")) ∧
    SolrInterface.search (SolrConnection.init u "w" rt mx fmt) transport pr params =
      ({}, .error (.typeError "This Solr instance is only for writing")) := by
  have hw : (SolrConnection.init u "r" rt mx fmt).writeable = false := rfl
  have hrd : (SolrConnection.init u "w" rt mx fmt).readable = false := rfl
  have hupd : ∀ (doc' : String) (m' : UpdateModifiers),
      (SolrConnection.init u "r" rt mx fmt).update transport doc' m' =
        ({}, .error (.typeError "This Solr instance is only for reading")) := by
    intro doc' m'
    simp [SolrConnection.update, hw]
  have hsel : (SolrConnection.init u "w" rt mx fmt).select transport params =
      ({}, .error (.typeError "This Solr instance is only for writing")) := by
    simp [SolrConnection.select, hrd]
  refine ⟨hupd doc m, hupd _ _, hupd _ _, hupd _ _, ?_, ?_, hsel, ?_, ?_⟩
  · intro htr
    have hguard : (!docs.truthy && !queries.truthy) = false := by
      rw [← Bool.not_or, htr]
      rfl
    simp [SolrInterface.delete, hguard, hupd]
  · intro hc hne
    rcases hnd : normalizeDocs docs with _ | ⟨d, ds⟩
    · rw [hnd] at hne
      simp at hne
    · simp only [SolrInterface.add, hnd]
      rw [grouper_cons chunk hc d ds]
      simp [addChunks, hupd]
  · simp [SolrConnection.mlt, hrd]
  · simp [SolrInterface.search, hsel]

/-- Witness for C6: a read-only connection refuses update, delete and add
with an empty trace; a write-only connection refuses select. -/
theorem mode_checks_precede_transport_witness :
    testConnR.update transport200 "<commit/>" {} =
      ({}, .error (.typeError "This Solr instance is only for reading")) ∧
    SolrInterface.delete testConnR transport200 testMakeDelete
        (.pyList [.pyStr "a"]) .pyNone {} =
      ({}, .error (.typeError "This Solr instance is only for reading")) ∧
    SolrInterface.add testConnR transport200 testMakeUpdate
        (.pyList [.pyStr "a"]) 100 {} =
      ({}, .error (.typeError "This Solr instance is only for reading")) ∧
    testConnW.select transport200 [("q", "x")] =
      ({}, .error (.typeError "This Solr instance is only for writing")) := by
  have h := mode_checks_precede_transport "http://localhost:8983/solr" "xml" (-1) 2048
    transport200 "<commit/>" {} none none none none testMakeUpdate testMakeDelete id
    (.pyList [.pyStr "a"]) .pyNone 100 [("q", "x")] none
  exact ⟨h.1, h.2.2.2.2.1 rfl, h.2.2.2.2.2.1 (by decide) rfl, h.2.2.2.2.2.2.1⟩

/-! Helper lemmas about `url_for_update`'s parameter accumulation. -/

/-- `addBoolParam` adds exactly its own key (when the modifier is
present). -/
theorem hasKey_addBoolParam (ps : List (String × String)) (key k : String)
    (o : Option Bool) :
    hasKey (addBoolParam ps key o) k =
      (hasKey ps k || (o.isSome && decide (key = k))) := by
  cases o <;> simp [addBoolParam, hasKey]

/-- `addCommitWithin` can only fail with the commitWithin message. -/
theorem addCommitWithin_error_msg {ps : List (String × String)} {o : Option PyVal}
    {e : String} (h : addCommitWithin ps o = .error e) :
    e = "commitWithin should be a number in milliseconds" := by
  cases o with
  | none => simp [addCommitWithin] at h
  | some v =>
    cases hv : pyInt v with
    | none =>
      simp [addCommitWithin, hv] at h
      exact h.symm
    | some n => simp [addCommitWithin, hv, py2_str_lt_int] at h

/-- `addMaxSegments` can only fail with the bare maxSegments message (the
"positive number" branch is dead: the Python 2 str-int comparison is
always false). -/
theorem addMaxSegments_error_msg {ps : List (String × String)} {o : Option PyVal}
    {e : String} (h : addMaxSegments ps o = .error e) : e = "maxSegments" := by
  cases o with
  | none => simp [addMaxSegments] at h
  | some v =>
    cases hv : pyInt v with
    | none =>
      simp [addMaxSegments, hv] at h
      exact h.symm
    | some n => simp [addMaxSegments, hv, py2_str_le_int] at h

/-- On success, `addCommitWithin` adds exactly the `commitWithin` key
(when the modifier is present). -/
theorem addCommitWithin_ok_hasKey {ps ps' : List (String × String)} {o : Option PyVal}
    (h : addCommitWithin ps o = .ok ps') (k : String) :
    hasKey ps' k = (hasKey ps k || (o.isSome && decide ("commitWithin" = k))) := by
  cases o with
  | none =>
    simp [addCommitWithin] at h
    subst h
    simp
  | some v =>
    cases hv : pyInt v with
    | none => simp [addCommitWithin, hv] at h
    | some n =>
      simp [addCommitWithin, hv, py2_str_lt_int] at h
      subst h
      simp [hasKey]

/-- On success, `addMaxSegments` adds exactly the `maxSegments` key (when
the modifier is present). -/
theorem addMaxSegments_ok_hasKey {ps ps' : List (String × String)} {o : Option PyVal}
    (h : addMaxSegments ps o = .ok ps') (k : String) :
    hasKey ps' k = (hasKey ps k || (o.isSome && decide ("maxSegments" = k))) := by
  cases o with
  | none =>
    simp [addMaxSegments] at h
    subst h
    simp
  | some v =>
    cases hv : pyInt v with
    | none => simp [addMaxSegments, hv] at h
    | some n =>
      simp [addMaxSegments, hv, py2_str_le_int] at h
      subst h
      simp [hasKey]

/-- C5: `expungeDeletes` supplied without `commit` makes `url_for_update`
fail with a `ValueError` (no url is produced); `maxSegments` supplied
without `optimize` likewise; and when both dependencies are satisfied,
neither dependency error is raised. -/
theorem url_for_update_modifier_dependencies (conn : SolrConnection)
    (m : UpdateModifiers) :
    (m.expungeDeletes.isSome = true → m.commit = none →
      ∀ u, conn.url_for_update m ≠ .ok u) ∧
    (m.maxSegments.isSome = true → m.optimize = none →
      ∀ u, conn.url_for_update m ≠ .ok u) ∧
    ((m.expungeDeletes.isSome = true → m.commit.isSome = true) →
     (m.maxSegments.isSome = true → m.optimize.isSome = true) →
      conn.url_for_update m ≠ .error "Can't do expungeDeletes without commit" ∧
      conn.url_for_update m ≠ .error "Can't do maxSegments without optimize") := by
  cases hcw : addCommitWithin (addBoolParam [] "commit" m.commit) m.commitWithin with
  | error e =>
    have hurl : conn.url_for_update m = .error e := by
      simp [SolrConnection.url_for_update, Bind.bind, Except.bind, hcw]
    have hmsg := addCommitWithin_error_msg hcw
    subst hmsg
    refine ⟨fun _ _ u => by simp [hurl], fun _ _ u => by simp [hurl],
      fun _ _ => ⟨by simp [hurl], by simp [hurl]⟩⟩
  | ok ps2 =>
    cases hms : addMaxSegments
        (addBoolParam (addBoolParam (addBoolParam (addBoolParam ps2 "softCommit"
          m.softCommit) "optimize" m.optimize) "waitSearcher" m.waitSearcher)
          "expungeDeletes" m.expungeDeletes) m.maxSegments with
    | error e =>
      have hurl : conn.url_for_update m = .error e := by
        simp [SolrConnection.url_for_update, Bind.bind, Except.bind, hcw, hms]
      have hmsg := addMaxSegments_error_msg hms
      subst hmsg
      refine ⟨fun _ _ u => by simp [hurl], fun _ _ u => by simp [hurl],
        fun _ _ => ⟨by simp [hurl], by simp [hurl]⟩⟩
    | ok ps7 =>
      have hurl : conn.url_for_update m =
          (if hasKey ps7 "expungeDeletes" && !hasKey ps7 "commit" then
             .error "Can't do expungeDeletes without commit"
           else if hasKey ps7 "maxSegments" && !hasKey ps7 "optimize" then
             .error "Can't do maxSegments without optimize"
           else if ps7.isEmpty then .ok conn.update_url
           else .ok (conn.update_url ++ "?" ++ urlencode (sortByKey ps7))) := by
        simp only [SolrConnection.url_for_update, Bind.bind, Except.bind, hcw, hms]
        rfl
      have hk : ∀ k, hasKey ps7 k =
          (((((((false || (m.commit.isSome && decide ("commit" = k))) ||
            (m.commitWithin.isSome && decide ("commitWithin" = k))) ||
            (m.softCommit.isSome && decide ("softCommit" = k))) ||
            (m.optimize.isSome && decide ("optimize" = k))) ||
            (m.waitSearcher.isSome && decide ("waitSearcher" = k))) ||
            (m.expungeDeletes.isSome && decide ("expungeDeletes" = k))) ||
            (m.maxSegments.isSome && decide ("maxSegments" = k))) := by
        intro k
        rw [addMaxSegments_ok_hasKey hms k, hasKey_addBoolParam, hasKey_addBoolParam,
          hasKey_addBoolParam, hasKey_addBoolParam, addCommitWithin_ok_hasKey hcw k,
          hasKey_addBoolParam]
        simp [hasKey]
      have hkC : hasKey ps7 "commit" = m.commit.isSome := by rw [hk]; simp
      have hkO : hasKey ps7 "optimize" = m.optimize.isSome := by rw [hk]; simp
      have hkE : hasKey ps7 "expungeDeletes" = m.expungeDeletes.isSome := by
        rw [hk]; simp
      have hkM : hasKey ps7 "maxSegments" = m.maxSegments.isSome := by rw [hk]; simp
      refine ⟨?_, ?_, ?_⟩
      · intro hE hC u
        have hCk : hasKey ps7 "commit" = false := by rw [hkC, hC]; rfl
        rw [hurl]
        simp [hkE, hE, hCk]
      · intro hM hO u
        have hOk : hasKey ps7 "optimize" = false := by rw [hkO, hO]; rfl
        rw [hurl]
        by_cases h1 : (hasKey ps7 "expungeDeletes" && !hasKey ps7 "commit") = true
        · simp [h1]
        · simp [h1, hkM, hM, hOk]
      · intro hE hM
        have h1 : (hasKey ps7 "expungeDeletes" && !hasKey ps7 "commit") = false := by
          rw [hkE, hkC]
          cases he : m.expungeDeletes.isSome
          · simp
          · simp [hE he]
        have h2 : (hasKey ps7 "maxSegments" && !hasKey ps7 "optimize") = false := by
          rw [hkM, hkO]
          cases hm : m.maxSegments.isSome
          · simp
          · simp [hM hm]
        rw [hurl]
        simp only [h1, h2, Bool.false_eq_true, if_false]
        constructor <;> split <;> simp

/-- Witness for C5: `expungeDeletes` alone and `maxSegments` (with a valid
value) alone are rejected; with their dependencies present the dependency
errors do not occur. -/
theorem url_for_update_modifier_dependencies_witness :
    testConn.url_for_update { expungeDeletes := some true } ≠ .ok "x" ∧
    testConn.url_for_update { maxSegments := some (.pInt 2) } ≠ .ok "x" ∧
    testConn.url_for_update { commit := some true, expungeDeletes := some true } ≠
      .error "Can't do expungeDeletes without commit" := by
  refine ⟨?_, ?_, ?_⟩
  · exact (url_for_update_modifier_dependencies testConn
      { expungeDeletes := some true }).1 rfl rfl "x"
  · exact (url_for_update_modifier_dependencies testConn
      { maxSegments := some (.pInt 2) }).2.1 rfl rfl "x"
  · exact ((url_for_update_modifier_dependencies testConn
      { commit := some true, expungeDeletes := some true }).2.2
        (fun _ => rfl) (by decide)).1

end Sunburnt
